import Mathlib

/-!
Formal model of `scripts/generate_commit.py`.

The script is a linear pipeline: query git for staged files and the staged
diff, build a prompt, POST it to a chat-completion endpoint, extract the
first brace-delimited JSON object from the reply, parse it, format a commit
message draft, display a `git commit` command and run it on user
confirmation.

Modelling conventions:
* Python `str` is Lean `String`; Python slicing `s[:n]` is `pySlice n s`
  (character based, as in Python).
* Parsed JSON values (the result of `json.loads`) are `JVal`; a Python dict
  is an association list with unique keys in insertion order, as produced by
  `json.loads`.
* External effects (subprocess calls, `os.getenv`, the HTTP round trip, the
  confirmation prompt, the success of the final `git commit`) are an `Env`
  oracle record; `json.loads` itself is an oracled function argument of
  `main`.
* Python exceptions are `Except` values; `main` mirrors which call sites sit
  inside the `try` blocks of the source and which do not.
-/

/-- Python character slicing `s[:n]` on a string. -/
def pySlice (n : Nat) (s : String) : String := String.mk (s.data.take n)

/-- Parsed JSON values, the possible results of `json.loads`.  A `jobj`
models a Python dict: an association list with unique keys, in insertion
order.  JSON numbers are modelled as integers; no claim exercises
fractional numbers. -/
inductive JVal where
  | jnull : JVal
  | jbool : Bool → JVal
  | jnum : Int → JVal
  | jstr : String → JVal
  | jarr : List JVal → JVal
  | jobj : List (String × JVal) → JVal

/-- Rendering of a value by Python string interpolation (`str`).  Strings,
numbers, booleans and `None` are rendered faithfully; the `repr`-style
rendering Python applies to lists and dicts is not modelled (no claim
exercises it, the script only interpolates strings on its success paths). -/
def JVal.display : JVal → String
  | .jstr s => s
  | .jnum n => toString n
  | .jbool b => if b then "True" else "False"
  | .jnull => "None"
  | .jarr _ => ""
  | .jobj _ => ""

/-- Python exceptions raised by the modelled code.  `typeError` stands for
the `TypeError`/`AttributeError` family raised by subscripting or iterating
a value of the wrong shape; only the constructor matters, both are caught by
the final generic `except Exception` clause of `main`. -/
inductive PyExn where
  | valueError (msg : String)
  | httpError (msg : String)
  | attributeError
  | typeError
  | keyError (k : String)
deriving DecidableEq

/-- Lookup in a Python dict, `d[k]` returning `None`-style absence. -/
def jLookup (k : String) : List (String × JVal) → Option JVal
  | [] => none
  | (k2, v) :: fs => if k2 == k then some v else jLookup k fs

/-- Python dict subscription `v[k]`: `KeyError` on a missing key,
`TypeError` when `v` is not a dict. -/
def jIndex (v : JVal) (k : String) : Except PyExn JVal :=
  match v with
  | .jobj fs =>
    match jLookup k fs with
    | some x => Except.ok x
    | none => Except.error (PyExn.keyError k)
  | _ => Except.error PyExn.typeError

/-- Python slicing `v[:n]` on a JSON value: defined on strings and lists,
`TypeError` on numbers, booleans, `None` and dicts. -/
def jSlice (n : Nat) : JVal → Except PyExn JVal
  | .jstr s => Except.ok (.jstr (pySlice n s))
  | .jarr xs => Except.ok (.jarr (xs.take n))
  | _ => Except.error PyExn.typeError

/-- The inner loop of `format_commit_message`: one `- {change}` line per
element, in order.  (Python would also accept other iterables for
`content["changes"]` — a string iterates its characters — but the script and
every claim only exercise JSON arrays, so other iterables are mapped to
`typeError` by `renderCategory` below.) -/
def renderChanges : List JVal → String
  | [] => ""
  | change :: rest => "- " ++ change.display ++ "\n" ++ renderChanges rest

/-- One iteration of the category loop in `format_commit_message` (lines
90-95): emoji lookup, header line, bullet lines, blank line. -/
def renderCategory (category : String) (content : JVal) : Except PyExn String :=
  match content with
  | .jobj cfs =>
    match jLookup "emoji" cfs with
    | none => Except.error (PyExn.keyError "emoji")
    | some emojiV =>
      match jLookup "changes" cfs with
      | none => Except.error (PyExn.keyError "changes")
      | some changesV =>
        match changesV with
        | .jarr changes =>
          Except.ok (emojiV.display ++ " " ++ category ++ ":\n" ++ renderChanges changes ++ "\n")
        | _ => Except.error PyExn.typeError
  | _ => Except.error PyExn.typeError

/-- The `for category, content in body.items()` loop, concatenating the
rendered categories in order and stopping at the first exception. -/
def renderBody : List (String × JVal) → Except PyExn String
  | [] => Except.ok ""
  | (category, content) :: rest =>
    match renderCategory category content with
    | Except.error e => Except.error e
    | Except.ok s =>
      match renderBody rest with
      | Except.error e => Except.error e
      | Except.ok r => Except.ok (s ++ r)

/-- `format_commit_message(commit_data)` from the source, lines 85-99.
Evaluation order follows the Python source: `commit_data["title"][:50]`,
then `commit_data["body"]`, then `commit_data["summary"]`, then the
category loop, then the final string. -/
def format_commit_message (commit_data : JVal) : Except PyExn String :=
  match commit_data with
  | .jobj cd =>
    match jLookup "title" cd with
    | none => Except.error (PyExn.keyError "title")
    | some titleV =>
      match jSlice 50 titleV with
      | Except.error e => Except.error e
      | Except.ok title =>
        match jLookup "body" cd with
        | none => Except.error (PyExn.keyError "body")
        | some bodyV =>
          match jLookup "summary" cd with
          | none => Except.error (PyExn.keyError "summary")
          | some summaryV =>
            match bodyV with
            | .jobj bodyFields =>
              match renderBody bodyFields with
              | Except.error e => Except.error e
              | Except.ok bodyStr =>
                Except.ok (title.display ++ "\n\n" ++ bodyStr ++ summaryV.display ++ "\n")
            | _ => Except.error PyExn.typeError
  | _ => Except.error PyExn.typeError

/-- The `files_summary` local of `generate_prompt`, lines 21-23: the first
three names joined by `", "`, then `" and {n} more"` when more than three
files are staged. -/
def files_summary (changed_files : List String) : String :=
  let s := String.intercalate ", " (changed_files.take 3)
  if 3 < changed_files.length then
    s ++ " and " ++ toString (changed_files.length - 3) ++ " more"
  else s

/-- `generate_prompt(diff, changed_files)` from the source, lines 20-61: the
literal f-string template with the file summary and the diff interpolated.
Braces of the JSON schema example are written with character escapes. -/
def generate_prompt (diff : String) (changed_files : List String) : String :=
  "Generate a structured commit message for the following git diff, following the semantic commit and gitemoji conventions:\n\nFiles changed: "
  ++ files_summary changed_files
  ++ "\n\n```\n"
  ++ diff
  ++ "\n```\n\nRequirements:\n1. Title: Maximum 50 characters, starting with an appropriate gitemoji, followed by the semantic commit type and a brief description.\n2. Body: Organize changes into categories. Each category should have an appropriate emoji and 2-3 bullet points summarizing key changes.\n3. Summary: A brief sentence summarizing the overall impact of the changes.\n\nRespond in the following JSON format:\n\x7b\n    \"title\": \"Your commit message title here\",\n    \"body\": \x7b\n        \"Category1\": \x7b\n            \"emoji\": \"🔧\",\n            \"changes\": [\n                \"First change in category 1\",\n                \"Second change in category 1\"\n            ]\n        \x7d,\n        \"Category2\": \x7b\n            \"emoji\": \"✨\",\n            \"changes\": [\n                \"First change in category 2\",\n                \"Second change in category 2\"\n            ]\n        \x7d\n    \x7d,\n    \"summary\": \"A brief summary of the overall changes and their impact.\"\n\x7d\n\nEnsure that each category and change is relevant and specific to the diff provided. Use appropriate and varied emojis for different categories.\n"

/-- Drop characters until the first one satisfying `p` (which stays). -/
def dropUntil (p : Char → Bool) : List Char → List Char
  | [] => []
  | c :: cs => if p c then c :: cs else dropUntil p cs

/-- The extraction `re.search(r"\x7b.*\x7d", content, re.DOTALL).group()` of
line 82: the greedy match runs from the first opening brace to the last
closing brace at or after it; `none` models `re.search` returning `None`
(so that `.group()` raises `AttributeError`). -/
def extractJson (s : List Char) : Option (List Char) :=
  match dropUntil (fun c => c == '\x7b') s with
  | [] => none
  | c :: cs =>
    match dropUntil (fun c => c == '\x7d') (List.reverse (c :: cs)) with
    | [] => none
    | d :: ds => some (List.reverse (d :: ds))

/-- The ambient effects of one run: results of the git queries, the
credential lookup, the HTTP round trip (`httpContent` is the
`response.json()["choices"][0]["message"]["content"]` text on success, or
the message of the `requests` exception on failure), the confirmation
answer, and whether the final `git commit` subprocess succeeds. -/
structure Env where
  changedFiles : Except String (List String)
  diffResult : Except String String
  apiKey : Option String
  httpContent : Except String String
  confirm : Bool
  commitSucceeds : Bool

/-- `get_changed_files()`: `git diff --staged --name-only`, split in lines;
a `CalledProcessError` carries its message. -/
def get_changed_files (env : Env) : Except String (List String) := env.changedFiles

/-- `get_diff()`: `git diff --staged`. -/
def get_diff (env : Env) : Except String String := env.diffResult

/-- `generate_commit_message(prompt)` from the source, lines 64-83.  The
returned boolean records whether the network call was issued: the missing
credential raises `ValueError` before any request.  The prompt only shapes
the request body, which the oracle `env.httpContent` abstracts. -/
def generate_commit_message (env : Env) (_prompt : String) : Bool × Except PyExn String :=
  match env.apiKey with
  | none => (false, Except.error (PyExn.valueError "OPENAI_API_KEY environment variable is not set."))
  | some _ =>
    match env.httpContent with
    | Except.error e => (true, Except.error (PyExn.httpError e))
    | Except.ok content =>
      match extractJson content.data with
      | none => (true, Except.error PyExn.attributeError)
      | some cs => (true, Except.ok (String.mk cs))

/-- How one run of `main` ends.  `uncaughtError` is an exception escaping
`main` (no `try` covers the raising call site); the `printed*` outcomes are
the three `except` clauses of the generation `try` block, each an early
`return`; the remaining outcomes are the normal terminations. -/
inductive Outcome where
  | uncaughtError (e : String)
  | noChanges
  | printedJsonError
  | printedKeyError (k : String)
  | printedGenericError (e : PyExn)
  | declined
  | committed
  | commitFailed
deriving DecidableEq

/-- Error outcomes of the pipeline phases before the commit step:
collaborator query, credential lookup, HTTP call, response parsing,
formatting.  `commitFailed` is a failure of the commit invocation itself,
not of an earlier phase, so it is not a pipeline error. -/
def Outcome.isPipelineError : Outcome → Bool
  | .uncaughtError _ => true
  | .printedJsonError => true
  | .printedKeyError _ => true
  | .printedGenericError _ => true
  | _ => false

/-- Observable summary of one run of `main`. -/
structure RunResult where
  outcome : Outcome
  promptBuilt : Bool
  networkCalled : Bool
  commitInvoked : Bool
  displayedCommand : Option String
deriving DecidableEq

/-- `main()` from the source, lines 101-147.  The git queries (lines 104 and
112) sit outside every `try` block, so their failures escape as
`uncaughtError`.  The generation `try` block catches `JSONDecodeError`,
`KeyError` and generic exceptions in that order.  Line 133 re-reads
`commit_data["title"]` outside any `try`; it cannot fail after a successful
`format_commit_message`, but the model keeps the raw branch. -/
def main_run (parse : String → Except Unit JVal) (env : Env) : RunResult :=
  match get_changed_files env with
  | Except.error e => ⟨Outcome.uncaughtError e, false, false, false, none⟩
  | Except.ok changed_files =>
    match changed_files with
    | [] => ⟨Outcome.noChanges, false, false, false, none⟩
    | _ :: _ =>
      match get_diff env with
      | Except.error e => ⟨Outcome.uncaughtError e, false, false, false, none⟩
      | Except.ok diff =>
        match generate_commit_message env (generate_prompt diff changed_files) with
        | (netw, Except.error e) => ⟨Outcome.printedGenericError e, true, netw, false, none⟩
        | (netw, Except.ok commit_message_json) =>
          match parse commit_message_json with
          | Except.error _ => ⟨Outcome.printedJsonError, true, netw, false, none⟩
          | Except.ok commit_data =>
            match format_commit_message commit_data with
            | Except.error (PyExn.keyError k) => ⟨Outcome.printedKeyError k, true, netw, false, none⟩
            | Except.error e => ⟨Outcome.printedGenericError e, true, netw, false, none⟩
            | Except.ok formatted_message =>
              match jIndex commit_data "title" with
              | Except.error _ =>
                ⟨Outcome.uncaughtError "KeyError while building the git command", true, netw, false, none⟩
              | Except.ok titleV =>
                let git_command :=
                  "git commit -m \"" ++ titleV.display ++ "\" -m \"" ++ formatted_message ++ "\""
                if env.confirm then
                  if env.commitSucceeds then
                    ⟨Outcome.committed, true, netw, true, some git_command⟩
                  else
                    ⟨Outcome.commitFailed, true, netw, true, some git_command⟩
                else
                  ⟨Outcome.declined, true, netw, false, some git_command⟩

/-- Concatenation of a list of strings in order (the incremental `+=`
accumulation of the Python loops, without a separator). -/
def concatList : List String → String
  | [] => ""
  | s :: rest => s ++ concatList rest

/-- A well-typed category of the response schema: an emoji marker and the
list of bullet strings. -/
structure Category where
  emoji : String
  changes : List String

/-- A well-typed response: the shape the prompt requests from the model
(title, categorized body, summary), used to describe the inputs on which
`format_commit_message` succeeds. -/
structure CommitPayload where
  title : String
  body : List (String × Category)
  summary : String

/-- The JSON value of a well-typed category. -/
def Category.toJVal (c : Category) : JVal :=
  JVal.jobj [("emoji", JVal.jstr c.emoji), ("changes", JVal.jarr (c.changes.map JVal.jstr))]

/-- The JSON value of a well-typed response. -/
def CommitPayload.toJVal (p : CommitPayload) : JVal :=
  JVal.jobj
    [("title", JVal.jstr p.title),
     ("body", JVal.jobj (p.body.map (fun x => (x.1, x.2.toJVal)))),
     ("summary", JVal.jstr p.summary)]

/-- The rendering of one category of a well-typed response. -/
def categoryString (name : String) (c : Category) : String :=
  c.emoji ++ " " ++ name ++ ":\n" ++ concatList (c.changes.map (fun ch => "- " ++ ch ++ "\n")) ++ "\n"

/-- The body part of the formatted draft of a well-typed response. -/
def payloadBody (p : CommitPayload) : String :=
  concatList (p.body.map (fun x => categoryString x.1 x.2))

/-- The full formatted draft of a well-typed response: truncated title,
blank line, categories, summary line. -/
def formattedOfPayload (p : CommitPayload) : String :=
  pySlice 50 p.title ++ "\n\n" ++ payloadBody p ++ p.summary ++ "\n"

/-- Split a character list into its lines at newline characters (used to
state facts about individual lines of the formatted draft). -/
def splitLines : List Char → List (List Char)
  | [] => [[]]
  | c :: cs =>
    if c = '\n' then [] :: splitLines cs
    else
      match splitLines cs with
      | [] => [[c]]
      | l :: ls => (c :: l) :: ls

/-- A run in which the staged-diff query itself fails. -/
def envC1 : Env :=
  ⟨Except.error "fatal: not a git repository (or any of the parent directories): .git",
   Except.ok "", none, Except.error "", false, true⟩

/-- A parse oracle that always fails (irrelevant to the C1 counterexample). -/
def parseC1 : String → Except Unit JVal := fun _ => Except.error ()

/-- A run in which both git queries succeed. -/
def envC1w : Env :=
  ⟨Except.ok ["a.py"], Except.ok "d", some "k", Except.ok "\x7b\x7d", false, true⟩

/-- A parse oracle returning a well-typed payload. -/
def parseC1w : String → Except Unit JVal :=
  fun _ => Except.ok (CommitPayload.toJVal ⟨"t", [("Core", ⟨"🔧", ["one"]⟩)], "s"⟩)

/-- A bullet of 80 characters. -/
def bulletC2 : String := String.mk (List.replicate 80 'x')

/-- A payload with one category holding the 80-character bullet. -/
def payloadC2 : CommitPayload := ⟨"t", [("Core", ⟨"🔧", [bulletC2]⟩)], "s"⟩

/-- A run whose model reply wraps the JSON object in prose. -/
def envC3 : Env :=
  ⟨Except.ok ["a.py"], Except.ok "d", some "k",
   Except.ok "Sure! \x7b\"title\":\"t\",\"body\":[]\x7d", true, true⟩

/-- A payload with a 60-character title. -/
def payloadC4 : CommitPayload := ⟨String.mk (List.replicate 60 'a'), [], "s"⟩

/-- A parse oracle returning a response that lacks the key `body` and holds
a number under `title`. -/
def parseC6 : String → Except Unit JVal :=
  fun _ => Except.ok (JVal.jobj [("title", JVal.jnum 5)])

/-- A run reaching the parse stage. -/
def envC6 : Env :=
  ⟨Except.ok ["a.py"], Except.ok "d", some "k", Except.ok "\x7b\x7d", true, true⟩

/-- A parse oracle returning an empty JSON object. -/
def parseC6w : String → Except Unit JVal := fun _ => Except.ok (JVal.jobj [])

/-- A run reaching the parse stage. -/
def envC6w : Env :=
  ⟨Except.ok ["a.py"], Except.ok "d", some "k", Except.ok "\x7b\x7d", true, true⟩

/-- A run with an empty staging area. -/
def envC7 : Env :=
  ⟨Except.ok [], Except.ok "", none, Except.error "", false, false⟩

/-- A parse oracle (never reached on an empty staging area). -/
def parseC7 : String → Except Unit JVal := fun _ => Except.error ()

/-- A well-typed payload. -/
def payloadC8 : CommitPayload := ⟨"t", [("Core", ⟨"🔧", ["one"]⟩)], "s"⟩

/-- A parse oracle returning `payloadC8`. -/
def parseC8 : String → Except Unit JVal := fun _ => Except.ok payloadC8.toJVal

/-- A full happy-path run whose confirmation is declined. -/
def envC8 : Env :=
  ⟨Except.ok ["a.py"], Except.ok "d", some "k", Except.ok "\x7b\x7d", false, true⟩

/-- A 60-character title. -/
def titleC9 : String := String.mk (List.replicate 60 'a')

/-- A payload whose title exceeds the 50-character limit. -/
def payloadC9 : CommitPayload := ⟨titleC9, [("Core", ⟨"🔧", ["one"]⟩)], "s"⟩

/-- A parse oracle returning `payloadC9`. -/
def parseC9 : String → Except Unit JVal := fun _ => Except.ok payloadC9.toJVal

/-- A run reaching the command display. -/
def envC9 : Env :=
  ⟨Except.ok ["a.py"], Except.ok "d", some "k", Except.ok "\x7b\x7d", false, true⟩

/-- A payload whose title is empty. -/
def payloadC10 : CommitPayload := ⟨"", [], "s"⟩

theorem dropUntil_cons_of_pos (p : Char → Bool) (c : Char) (cs : List Char) (h : p c = true) :
    dropUntil p (c :: cs) = c :: cs := by
  simp [dropUntil, h]

theorem dropUntil_append_of_none (p : Char → Bool) (l r : List Char)
    (h : ∀ c ∈ l, p c = false) :
    dropUntil p (l ++ r) = dropUntil p r := by
  induction l with
  | nil => rfl
  | cons a as ih =>
    have ha : p a = false := h a (List.mem_cons_self a as)
    rw [List.cons_append]
    simp only [dropUntil, ha, if_false]
    exact ih (fun c hc => h c (List.mem_cons_of_mem a hc))

theorem extractJson_spec (pre mid post : List Char)
    (hpre : '\x7b' ∉ pre) (hpost : '\x7d' ∉ post) :
    extractJson (pre ++ ('\x7b' :: (mid ++ ['\x7d'])) ++ post)
      = some ('\x7b' :: (mid ++ ['\x7d'])) := by
  have hpre2 : ∀ c ∈ pre, (c == '\x7b') = false := by
    intro c hc
    rw [beq_eq_false_iff_ne]
    intro he
    exact hpre (he ▸ hc)
  have hpost2 : ∀ c ∈ post.reverse, (c == '\x7d') = false := by
    intro c hc
    rw [beq_eq_false_iff_ne]
    intro he
    exact hpost (he ▸ (List.mem_reverse.mp hc))
  have h1 : dropUntil (fun c => c == '\x7b') (pre ++ ('\x7b' :: (mid ++ ['\x7d'])) ++ post)
      = '\x7b' :: ((mid ++ ['\x7d']) ++ post) := by
    rw [List.append_assoc, dropUntil_append_of_none _ _ _ hpre2, List.cons_append,
      dropUntil_cons_of_pos]
    rfl
  have h2 : dropUntil (fun c => c == '\x7d')
        (List.reverse ('\x7b' :: ((mid ++ ['\x7d']) ++ post)))
      = '\x7d' :: (mid.reverse ++ ['\x7b']) := by
    have : List.reverse ('\x7b' :: ((mid ++ ['\x7d']) ++ post))
        = post.reverse ++ ('\x7d' :: (mid.reverse ++ ['\x7b'])) := by
      simp
    rw [this, dropUntil_append_of_none _ _ _ hpost2, dropUntil_cons_of_pos]
    rfl
  simp only [extractJson, h1, h2]
  simp

theorem renderChanges_map (cs : List String) :
    renderChanges (cs.map JVal.jstr) = concatList (cs.map (fun ch => "- " ++ ch ++ "\n")) := by
  induction cs with
  | nil => rfl
  | cons a as ih => simp [renderChanges, concatList, JVal.display, ih]

theorem renderCategory_payload (name : String) (c : Category) :
    renderCategory name c.toJVal = Except.ok (categoryString name c) := by
  simp [renderCategory, Category.toJVal, jLookup, JVal.display, categoryString, renderChanges_map]

theorem renderBody_payload (l : List (String × Category)) :
    renderBody (l.map (fun x => (x.1, x.2.toJVal)))
      = Except.ok (concatList (l.map (fun x => categoryString x.1 x.2))) := by
  induction l with
  | nil => rfl
  | cons a as ih => simp [renderBody, renderCategory_payload, concatList, ih]

theorem format_payload (p : CommitPayload) :
    format_commit_message p.toJVal = Except.ok (formattedOfPayload p) := by
  have h : format_commit_message p.toJVal
      = match renderBody (p.body.map (fun x => (x.1, x.2.toJVal))) with
        | Except.error e => Except.error e
        | Except.ok bodyStr =>
          Except.ok (pySlice 50 p.title ++ "\n\n" ++ bodyStr ++ p.summary ++ "\n") := rfl
  rw [h, renderBody_payload]
  rfl

theorem pySlice_of_le (n : Nat) (s : String) (h : s.length ≤ n) : pySlice n s = s := by
  have h2 : s.data.take n = s.data := List.take_of_length_le h
  rw [pySlice, h2]

theorem pySlice_length (n : Nat) (s : String) : (pySlice n s).length = min n s.length := by
  rw [pySlice]
  exact List.length_take n s.data

theorem pySlice_eq_empty_iff (n : Nat) (s : String) (hn : 0 < n) :
    pySlice n s = "" ↔ s = "" := by
  constructor
  · intro h
    have hd : s.data.take n = [] := by
      have := congrArg String.data h
      simpa [pySlice] using this
    rcases List.take_eq_nil_iff.mp hd with h1 | h1
    · omega
    · cases s
      simp_all
  · intro h
    subst h
    show String.mk (List.take n []) = ""
    rw [List.take_nil]

theorem format_ok_jIndex (cd : JVal) (s : String) (h : format_commit_message cd = Except.ok s) :
    ∃ tv, jIndex cd "title" = Except.ok tv := by
  cases cd with
  | jobj fs =>
    cases htitle : jLookup "title" fs with
    | none => simp [format_commit_message, htitle] at h
    | some tv => exact ⟨tv, by simp [jIndex, htitle]⟩
  | jnull => simp [format_commit_message] at h
  | jbool b => simp [format_commit_message] at h
  | jnum n => simp [format_commit_message] at h
  | jstr t => simp [format_commit_message] at h
  | jarr xs => simp [format_commit_message] at h

theorem main_run_after_parse (parse : String → Except Unit JVal) (env : Env)
    (f : String) (fs : List String) (d content key : String) (obj : List Char) (cdv : JVal)
    (h1 : env.changedFiles = Except.ok (f :: fs))
    (h2 : env.diffResult = Except.ok d)
    (h3 : env.apiKey = some key)
    (h4 : env.httpContent = Except.ok content)
    (h5 : extractJson content.data = some obj)
    (h6 : parse (String.mk obj) = Except.ok cdv) :
    main_run parse env
      = match format_commit_message cdv with
        | Except.error (PyExn.keyError k) => ⟨Outcome.printedKeyError k, true, true, false, none⟩
        | Except.error e => ⟨Outcome.printedGenericError e, true, true, false, none⟩
        | Except.ok formatted_message =>
          match jIndex cdv "title" with
          | Except.error _ =>
            ⟨Outcome.uncaughtError "KeyError while building the git command", true, true, false, none⟩
          | Except.ok titleV =>
            let git_command :=
              "git commit -m \"" ++ titleV.display ++ "\" -m \"" ++ formatted_message ++ "\""
            if env.confirm then
              if env.commitSucceeds then
                ⟨Outcome.committed, true, true, true, some git_command⟩
              else
                ⟨Outcome.commitFailed, true, true, true, some git_command⟩
            else
              ⟨Outcome.declined, true, true, false, some git_command⟩ := by
  simp only [main_run, get_changed_files, get_diff, generate_commit_message, h1, h2, h3, h4,
    h5, h6]

/-- C1, counterexample: a failure of the staged-file query (line 104 of the
source, outside every `try` block) escapes `main` as an uncaught exception,
so not every phase error is caught at the top-level run loop. -/
theorem claim_error_handling_counterexample :
    (main_run parseC1 envC1).outcome
      = Outcome.uncaughtError
          "fatal: not a git repository (or any of the parent directories): .git"
    ∧ (main_run parseC1 envC1).commitInvoked = false := ⟨rfl, rfl⟩

/-- C1, amended: when both git queries succeed, every error of the later
phases (credential lookup, HTTP call, response parsing, formatting) is
caught, printed and causes an early normal return; and on every pipeline
error path, of any phase, no commit invocation is executed.  Errors of the
two git queries themselves propagate uncaught out of `main`. -/
theorem claim_error_handling_amended :
    (∀ (parse : String → Except Unit JVal) (env : Env) (files : List String) (d : String),
      env.changedFiles = Except.ok files → env.diffResult = Except.ok d →
      ∀ m, (main_run parse env).outcome ≠ Outcome.uncaughtError m)
    ∧ (∀ (parse : String → Except Unit JVal) (env : Env),
      (main_run parse env).outcome.isPipelineError = true →
        (main_run parse env).commitInvoked = false) := by
  constructor
  · intro parse env files d h1 h2 m
    unfold main_run
    repeat' split
    all_goals simp_all [get_changed_files, get_diff]
    all_goals
      exfalso
      rename_i hfmt hidx
      rcases format_ok_jIndex _ _ hfmt with ⟨tv, htv⟩
      rw [htv] at hidx
      exact Except.noConfusion hidx
  · intro parse env
    unfold main_run
    repeat' split
    all_goals simp [Outcome.isPipelineError]

/-- C1, witness for the amended theorem at a concrete run. -/
theorem claim_error_handling_witness :
    ((main_run parseC1w envC1w).outcome ≠ Outcome.uncaughtError "boom")
    ∧ ((main_run parseC1w envC1w).outcome.isPipelineError = true →
        (main_run parseC1w envC1w).commitInvoked = false) :=
  ⟨claim_error_handling_amended.1 parseC1w envC1w ["a.py"] "d" rfl rfl "boom",
   claim_error_handling_amended.2 parseC1w envC1w⟩

/-- C2, counterexample: an 80-character bullet is rendered as the 82-character
line `- ` followed by the bullet, unchanged — the formatter applies no
72-character truncation to bullets. -/
theorem claim_bullet_truncation_counterexample :
    format_commit_message payloadC2.toJVal
      = Except.ok ("t\n\n🔧 Core:\n- " ++ bulletC2 ++ "\n\ns\n")
    ∧ ("- " ++ bulletC2).data ∈ splitLines (("t\n\n🔧 Core:\n- " ++ bulletC2 ++ "\n\ns\n").data)
    ∧ 72 < ("- " ++ bulletC2).length := by
  refine ⟨rfl, ?_, ?_⟩ <;> decide

/-- C2, amended: every bullet string of the parsed body appears verbatim in
the formatted draft as the line `- ` followed by the bullet, whatever its
length; no truncation (and no wrapping) is applied to bullets. -/
theorem claim_bullet_truncation_amended (p : CommitPayload) :
    format_commit_message p.toJVal
      = Except.ok (pySlice 50 p.title ++ "\n\n"
          ++ concatList (p.body.map (fun x =>
              x.2.emoji ++ " " ++ x.1 ++ ":\n"
              ++ concatList (x.2.changes.map (fun ch => "- " ++ ch ++ "\n")) ++ "\n"))
          ++ p.summary ++ "\n") := by
  rw [format_payload]
  rfl

/-- C3: when the reply text is a brace-delimited object surrounded by
brace-free prose, `generate_commit_message` returns exactly that object,
verbatim, after one network call. -/
theorem claim_json_extraction (env : Env) (prompt : String) (key : String)
    (pre mid post : List Char)
    (hkey : env.apiKey = some key)
    (hhttp : env.httpContent
      = Except.ok (String.mk (pre ++ ('\x7b' :: (mid ++ ['\x7d'])) ++ post)))
    (hpre1 : '\x7b' ∉ pre) (hpre2 : '\x7d' ∉ pre)
    (hpost1 : '\x7b' ∉ post) (hpost2 : '\x7d' ∉ post) :
    generate_commit_message env prompt
      = (true, Except.ok (String.mk ('\x7b' :: (mid ++ ['\x7d'])))) := by
  unfold generate_commit_message
  rw [hkey, hhttp]
  simp only [extractJson_spec pre mid post hpre1 hpost2]

/-- C3, witness: the example from the specification. -/
theorem claim_json_extraction_witness :
    generate_commit_message envC3 "p"
      = (true, Except.ok "\x7b\"title\":\"t\",\"body\":[]\x7d") :=
  claim_json_extraction envC3 "p" "k" ("Sure! ".data) ("\"title\":\"t\",\"body\":[]".data) []
    rfl rfl (by decide) (by decide) (by decide) (by decide)

/-- C4: the formatted draft places the truncation `title[:50]` in the title
position; it equals the first 50 characters when the parsed title is longer
than 50 and the parsed title unchanged otherwise. -/
theorem claim_title_truncation (p : CommitPayload) :
    format_commit_message p.toJVal
      = Except.ok (pySlice 50 p.title ++ "\n\n" ++ payloadBody p ++ p.summary ++ "\n")
    ∧ (50 < p.title.length → (pySlice 50 p.title).length = 50
        ∧ pySlice 50 p.title = String.mk (p.title.data.take 50))
    ∧ (p.title.length ≤ 50 → pySlice 50 p.title = p.title) := by
  refine ⟨format_payload p, fun h => ⟨?_, rfl⟩, fun h => pySlice_of_le 50 p.title h⟩
  rw [pySlice_length]
  omega

/-- C4, witness at a 60-character title. -/
theorem claim_title_truncation_witness :
    (pySlice 50 payloadC4.title).length = 50
    ∧ pySlice 50 payloadC4.title = String.mk (payloadC4.title.data.take 50) :=
  (claim_title_truncation payloadC4).2.1 (by decide)

/-- C5, counterexample: for four staged files the summary is
`a.py, b.py, c.py and 1 more`; it contains no `+` character at all, so it
does not carry a literal `+N more` suffix. -/
theorem claim_files_summary_counterexample :
    files_summary ["a.py", "b.py", "c.py", "d.py"] = "a.py, b.py, c.py and 1 more"
    ∧ '+' ∉ (files_summary ["a.py", "b.py", "c.py", "d.py"]).data := by
  refine ⟨?_, ?_⟩ <;> decide

/-- C5, amended: for a non-empty staged-file list of at most 3 entries the
summary lists the names verbatim; for a longer list it lists exactly the
first 3 names followed by the suffix ` and N more` with N the list length
minus 3. -/
theorem claim_files_summary_amended (l : List String) (h : l ≠ []) :
    (l.length ≤ 3 → files_summary l = String.intercalate ", " l)
    ∧ (3 < l.length →
        files_summary l
          = String.intercalate ", " (l.take 3) ++ " and "
            ++ toString (l.length - 3) ++ " more") := by
  constructor
  · intro h3
    show (if 3 < l.length then
        String.intercalate ", " (l.take 3) ++ " and " ++ toString (l.length - 3) ++ " more"
      else String.intercalate ", " (l.take 3)) = _
    rw [if_neg (by omega), List.take_of_length_le h3]
  · intro h3
    show (if 3 < l.length then
        String.intercalate ", " (l.take 3) ++ " and " ++ toString (l.length - 3) ++ " more"
      else String.intercalate ", " (l.take 3)) = _
    rw [if_pos h3]

/-- C5, witness at a 2-element and a 5-element list. -/
theorem claim_files_summary_witness :
    files_summary ["a.py", "b.py"] = String.intercalate ", " ["a.py", "b.py"]
    ∧ files_summary ["a.py", "b.py", "c.py", "d.py", "e.py"]
        = String.intercalate ", " ["a.py", "b.py", "c.py"] ++ " and "
          ++ toString 2 ++ " more" :=
  ⟨(claim_files_summary_amended ["a.py", "b.py"] (by decide)).1 (by decide),
   (claim_files_summary_amended ["a.py", "b.py", "c.py", "d.py", "e.py"] (by decide)).2
     (by decide)⟩

/-- C6, counterexample: the parsed response `\x7b"title": 5\x7d` lacks the
required key `body`, yet the run reports a generic type error (Python
raises `TypeError` at `commit_data["title"][:50]` before the missing key is
ever examined), not an error naming the missing key; no commit occurs. -/
theorem claim_missing_key_counterexample :
    (main_run parseC6 envC6).outcome = Outcome.printedGenericError PyExn.typeError
    ∧ (main_run parseC6 envC6).outcome ≠ Outcome.printedKeyError "body"
    ∧ (main_run parseC6 envC6).commitInvoked = false := by
  refine ⟨rfl, ?_, rfl⟩
  decide

/-- C6, amended: when the formatter reaches the missing required key — the
values it examines before that key are well-typed — the run reports an
error naming exactly that key and returns without invoking any commit;
evaluation order is title, body, summary. -/
theorem claim_missing_key_amended (parse : String → Except Unit JVal) (env : Env)
    (f : String) (fs : List String) (d content key : String) (obj : List Char)
    (cd : List (String × JVal))
    (h1 : env.changedFiles = Except.ok (f :: fs))
    (h2 : env.diffResult = Except.ok d)
    (h3 : env.apiKey = some key)
    (h4 : env.httpContent = Except.ok content)
    (h5 : extractJson content.data = some obj)
    (h6 : parse (String.mk obj) = Except.ok (JVal.jobj cd)) :
    (jLookup "title" cd = none →
      (main_run parse env).outcome = Outcome.printedKeyError "title"
      ∧ (main_run parse env).commitInvoked = false)
    ∧ (∀ t, jLookup "title" cd = some (JVal.jstr t) → jLookup "body" cd = none →
      (main_run parse env).outcome = Outcome.printedKeyError "body"
      ∧ (main_run parse env).commitInvoked = false)
    ∧ (∀ t bv, jLookup "title" cd = some (JVal.jstr t) → jLookup "body" cd = some bv →
        jLookup "summary" cd = none →
      (main_run parse env).outcome = Outcome.printedKeyError "summary"
      ∧ (main_run parse env).commitInvoked = false) := by
  have hrun := main_run_after_parse parse env f fs d content key obj (JVal.jobj cd)
    h1 h2 h3 h4 h5 h6
  refine ⟨?_, ?_, ?_⟩
  · intro ht
    have hfmt : format_commit_message (JVal.jobj cd)
        = Except.error (PyExn.keyError "title") := by
      simp [format_commit_message, ht]
    rw [hrun, hfmt]
    exact ⟨rfl, rfl⟩
  · intro t ht hb
    have hfmt : format_commit_message (JVal.jobj cd)
        = Except.error (PyExn.keyError "body") := by
      simp [format_commit_message, ht, hb, jSlice]
    rw [hrun, hfmt]
    exact ⟨rfl, rfl⟩
  · intro t bv ht hb hs
    have hfmt : format_commit_message (JVal.jobj cd)
        = Except.error (PyExn.keyError "summary") := by
      simp [format_commit_message, ht, hb, hs, jSlice]
    rw [hrun, hfmt]
    exact ⟨rfl, rfl⟩

/-- C6, witness: an empty parsed object is reported as missing `title`. -/
theorem claim_missing_key_witness :
    (main_run parseC6w envC6w).outcome = Outcome.printedKeyError "title"
    ∧ (main_run parseC6w envC6w).commitInvoked = false :=
  (claim_missing_key_amended parseC6w envC6w "a.py" [] "d" "\x7b\x7d" "k"
    ('\x7b' :: ['\x7d']) [] rfl rfl rfl rfl (by decide) rfl).1 rfl

/-- C7: an empty staged-file list ends the run at the no-changes report:
no prompt is built, no network call is issued, no commit is invoked. -/
theorem claim_no_changes (parse : String → Except Unit JVal) (env : Env)
    (h : env.changedFiles = Except.ok []) :
    main_run parse env = ⟨Outcome.noChanges, false, false, false, none⟩ := by
  simp only [main_run, get_changed_files, h]

/-- C7, witness. -/
theorem claim_no_changes_witness :
    main_run parseC7 envC7 = ⟨Outcome.noChanges, false, false, false, none⟩ :=
  claim_no_changes parseC7 envC7 rfl

/-- C8: whenever the confirmation is declined, no commit is invoked, on any
run; and if the run displayed a git command, it ends in the declined state
that reports the command as available for manual use. -/
theorem claim_decline_no_commit (parse : String → Except Unit JVal) (env : Env)
    (h : env.confirm = false) :
    (main_run parse env).commitInvoked = false
    ∧ ((main_run parse env).displayedCommand.isSome = true →
        (main_run parse env).outcome = Outcome.declined) := by
  unfold main_run
  repeat' split
  all_goals simp_all

/-- C8, witness at a full happy-path run with declined confirmation. -/
theorem claim_decline_no_commit_witness :
    (main_run parseC8 envC8).commitInvoked = false
    ∧ ((main_run parseC8 envC8).displayedCommand.isSome = true →
        (main_run parseC8 envC8).outcome = Outcome.declined) :=
  claim_decline_no_commit parseC8 envC8 rfl

/-- C9, counterexample: with a 60-character parsed title, the displayed git
command passes the raw untruncated title as its first message segment — not
the truncated draft title — and passes the whole formatted draft, title line
included, as its second segment — not the body with the title excluded. -/
theorem claim_commit_segments_counterexample :
    (main_run parseC9 envC9).displayedCommand
      = some ("git commit -m \"" ++ titleC9 ++ "\" -m \""
          ++ formattedOfPayload payloadC9 ++ "\"")
    ∧ titleC9 ≠ pySlice 50 titleC9
    ∧ formattedOfPayload payloadC9
        ≠ payloadBody payloadC9 ++ payloadC9.summary ++ "\n" := by
  refine ⟨rfl, ?_, ?_⟩ <;> decide

/-- C9, amended: the commit invocation passes the raw parsed title as the
first message segment and the entire formatted draft — whose first line is
the truncated title — as the second message segment. -/
theorem claim_commit_segments_amended (p : CommitPayload) (env : Env)
    (parse : String → Except Unit JVal)
    (f : String) (fs : List String) (d content key : String) (obj : List Char)
    (h1 : env.changedFiles = Except.ok (f :: fs))
    (h2 : env.diffResult = Except.ok d)
    (h3 : env.apiKey = some key)
    (h4 : env.httpContent = Except.ok content)
    (h5 : extractJson content.data = some obj)
    (h6 : parse (String.mk obj) = Except.ok p.toJVal) :
    (main_run parse env).displayedCommand
      = some ("git commit -m \"" ++ p.title ++ "\" -m \"" ++ formattedOfPayload p ++ "\"")
    ∧ formattedOfPayload p
        = pySlice 50 p.title ++ "\n\n" ++ payloadBody p ++ p.summary ++ "\n" := by
  have hrun := main_run_after_parse parse env f fs d content key obj p.toJVal
    h1 h2 h3 h4 h5 h6
  have hidx : jIndex p.toJVal "title" = Except.ok (JVal.jstr p.title) := rfl
  rw [hrun, format_payload, hidx]
  refine ⟨?_, rfl⟩
  cases hc : env.confirm with
  | false => rfl
  | true =>
    cases hs : env.commitSucceeds with
    | false => simp [hc, hs, JVal.display]
    | true => simp [hc, hs, JVal.display]

/-- C9, witness. -/
theorem claim_commit_segments_witness :
    (main_run parseC9 envC9).displayedCommand
      = some ("git commit -m \"" ++ payloadC9.title ++ "\" -m \""
          ++ formattedOfPayload payloadC9 ++ "\"")
    ∧ formattedOfPayload payloadC9
        = pySlice 50 payloadC9.title ++ "\n\n" ++ payloadBody payloadC9
          ++ payloadC9.summary ++ "\n" :=
  claim_commit_segments_amended payloadC9 envC9 parseC9 "a.py" [] "d" "\x7b\x7d" "k"
    ('\x7b' :: ['\x7d']) rfl rfl rfl rfl (by decide) rfl

/-- C10, counterexample: an empty parsed title passes through the formatter
unchanged, producing a draft whose subject line is empty — the formatter
does not guarantee a non-empty title. -/
theorem claim_title_nonempty_counterexample :
    format_commit_message payloadC10.toJVal = Except.ok "\n\ns\n"
    ∧ (splitLines ("\n\ns\n".data)).head? = some [] := by
  refine ⟨rfl, ?_⟩
  decide

/-- C10, amended: the draft title is the parsed title truncated, never
expanded, to 50 characters; it is empty exactly when the parsed title is
empty, so non-emptiness is not guaranteed by the formatter. -/
theorem claim_title_nonempty_amended (p : CommitPayload) :
    format_commit_message p.toJVal
      = Except.ok (pySlice 50 p.title ++ "\n\n" ++ payloadBody p ++ p.summary ++ "\n")
    ∧ (pySlice 50 p.title).length = min 50 p.title.length
    ∧ (pySlice 50 p.title = "" ↔ p.title = "") :=
  ⟨format_payload p, pySlice_length 50 p.title, pySlice_eq_empty_iff 50 p.title (by omega)⟩
